import Mathlib

/-!
Verification of the client-side form/navigation logic of a static portfolio
website (`scripts.js`).  The JavaScript source is shallowly embedded: DOM
state read or written by each handler becomes an explicit structure, the
network call becomes a parameter describing its outcome, and every function
is a pure Lean function mirroring the source line by line.
-/

namespace Portfolio

/-- Character class matched by the JavaScript regex escape `\s`
(whitespace as used both by `String.prototype.trim` and by the
email regex in `validateEmail`). -/
def isJsSpace (c : Char) : Bool :=
  c == ' ' || c == '\t' || c == '\n' || c == '\r' ||
  c == '\x0b' || c == '\x0c' ||
  c.toNat == 0xa0 || c.toNat == 0x1680 ||
  (0x2000 ≤ c.toNat && c.toNat ≤ 0x200a) ||
  c.toNat == 0x2028 || c.toNat == 0x2029 || c.toNat == 0x202f ||
  c.toNat == 0x205f || c.toNat == 0x3000 || c.toNat == 0xfeff

/-- A character admissible inside each block of the email regex:
the character class `[^\s@]`. -/
def emailOk (c : Char) : Bool :=
  !(isJsSpace c) && !(c == '@')

/-- JavaScript `String.prototype.trim`: strip leading and trailing
`\s`-whitespace. -/
def jsTrim (s : String) : String :=
  ⟨((s.data.dropWhile isJsSpace).reverse.dropWhile isJsSpace).reverse⟩

/-- The function `validateEmail` (scripts.js line 190): tests the string
against the regex `^[^\s@]+@[^\s@]+\.[^\s@]+$`.  The regex is embedded by
its match semantics, phrased over character positions: there are positions
`i < j` holding `'@'` and `'.'` such that the blocks before `i`, between
`i` and `j`, and after `j` are non-empty and every character other than
the one at `i` lies in the class `[^\s@]`. -/
def validateEmail (email : String) : Bool :=
  let l := email.data
  decide (∃ i ∈ Finset.range l.length, ∃ j ∈ Finset.range l.length,
    1 ≤ i ∧ i + 2 ≤ j ∧ j + 2 ≤ l.length ∧
    l.getD i ' ' = '@' ∧ l.getD j ' ' = '.' ∧
    ∀ k ∈ Finset.range l.length, k ≠ i → emailOk (l.getD k ' ') = true)

/-- The pattern `^[^\s@]+@[^\s@]+\.[^\s@]+$` as the specification states
it: the string decomposes as a non-empty block of `[^\s@]` characters,
an `'@'`, a non-empty block, a `'.'`, and a final non-empty block. -/
def matchesEmailPattern (s : String) : Prop :=
  ∃ A B C : List Char,
    s.data = A ++ '@' :: (B ++ '.' :: C) ∧
    A ≠ [] ∧ B ≠ [] ∧ C ≠ [] ∧
    (∀ c ∈ A, emailOk c = true) ∧
    (∀ c ∈ B, emailOk c = true) ∧
    (∀ c ∈ C, emailOk c = true)


/-- The three form fields read from the DOM on a submit attempt. -/
structure FormInput where
  name : String
  email : String
  message : String
deriving DecidableEq

/-- Name branch of `validateForm` (scripts.js lines 229-240): the trimmed
value must be non-empty and at least 2 characters; the returned option is
the error message passed to `showError`, `none` meaning `clearError`. -/
def checkName (v : String) : Option String :=
  if jsTrim v = "" then some "Please enter your name"
  else if (jsTrim v).length < 2 then some "Name must be at least 2 characters"
  else none

/-- Email branch of `validateForm` (scripts.js lines 243-254). -/
def checkEmail (v : String) : Option String :=
  if jsTrim v = "" then some "Please enter your email"
  else if validateEmail (jsTrim v) = false then some "Please enter a valid email address"
  else none

/-- Message branch of `validateForm` (scripts.js lines 257-268): at least
10 characters after trimming. -/
def checkMessage (v : String) : Option String :=
  if jsTrim v = "" then some "Please enter a message"
  else if (jsTrim v).length < 10 then some "Message must be at least 10 characters"
  else none

/-- The per-field error texts shown next to the inputs (the
`.error-message` elements written by `showError` / `clearError`). -/
structure FieldErrors where
  nameError : Option String
  emailError : Option String
  messageError : Option String
deriving DecidableEq

/-- The side effect of `validateForm` on the three error elements. -/
def runValidation (f : FormInput) : FieldErrors :=
  { nameError := checkName f.name
    emailError := checkEmail f.email
    messageError := checkMessage f.message }

/-- The boolean returned by `validateForm` (scripts.js line 221): starts
`true` and is set `false` by every failing branch, hence the conjunction
of the three per-field outcomes. -/
def validateForm (f : FormInput) : Bool :=
  (checkName f.name).isNone && (checkEmail f.email).isNone &&
    (checkMessage f.message).isNone

/-- JSON body sent to the submission endpoint (scripts.js lines 310-316). -/
structure SubmissionRequest where
  access_key : String
  name : String
  email : String
  message : String
  subject : String
deriving DecidableEq

/-- The static access credential embedded in the payload. -/
def accessKey : String := "f45e1224-9822-4d7b-9ce0-e88fb5594e30"

/-- Payload assembly from the raw (untrimmed) `FormData` values. -/
def buildPayload (f : FormInput) : SubmissionRequest :=
  { access_key := accessKey
    name := f.name
    email := f.email
    message := f.message
    subject := "New message from " ++ f.name ++ " - Portfolio Contact Form" }

/-- Outcome of the awaited part of the submission: the `fetch` call can
throw, `response.json()` can throw, or a parsed result arrives carrying a
`success` flag and an optional `message`. -/
inductive NetOutcome where
  | fetchThrow (msg : String)
  | jsonThrow (msg : String)
  | ok (success : Bool) (message : Option String)
deriving DecidableEq

/-- JavaScript `a || b` on an optional string (`undefined` and `""` are
falsy), as used in `result.message || 'Submission failed'`. -/
def jsOrDefault (m : Option String) (d : String) : String :=
  match m with
  | none => d
  | some s => if s = "" then d else s

/-- The error value reaching the `catch` block for each failing outcome:
the thrown transport or parse error, or `new Error(result.message ||
'Submission failed')` for a `success:false` response. -/
def thrownError : NetOutcome → String
  | .fetchThrow m => m
  | .jsonThrow m => m
  | .ok _ m => jsOrDefault m "Submission failed"

/-- Distinguishes outcomes handled by the `catch` block from the
`success:true` path. -/
def isFailure : NetOutcome → Bool
  | .ok true _ => false
  | _ => true

/-- Externally visible effects of one submit: requests issued by `fetch`,
strings passed to `console.error`, and the delay of the scheduled
status-clearing `setTimeout`, if any. -/
structure SubmitEffects where
  posts : List SubmissionRequest
  loggedErrors : List String
  statusClearDelay : Option Nat
deriving DecidableEq

/-- DOM state touched by the submit handler: field values, per-field error
texts, the `#form-status` element, and the submit button. -/
structure SubmitDom where
  fields : FormInput
  fieldErrors : FieldErrors
  statusText : String
  statusClass : String
  statusColor : String
  buttonDisabled : Bool
  buttonLabel : String
deriving DecidableEq

/-- Loading label written into the submit button (scripts.js line 323). -/
def sendingLabel : String := "<span>Sending...</span>"

/-- Status text of the success branch (scripts.js line 342). -/
def successMessage : String := "\u2713 Message sent successfully! I\x27ll get back to you soon."

/-- Status text of the catch branch (scripts.js line 362). -/
def failureMessage : String := "\u2717 Something went wrong. Please try again."

/-- The `try`/`catch` body of the submit handler (scripts.js lines
326-365), given the already assembled payload and the network outcome. -/
def submitAttempt (data : SubmissionRequest) (net : NetOutcome) (dom : SubmitDom) :
    SubmitDom × SubmitEffects :=
  match net with
  | .ok true _ =>
    ({ dom with
        statusText := successMessage
        statusColor := "var(--accent-cyan)"
        fields := { name := "", email := "", message := "" } },
     { posts := [data], loggedErrors := [], statusClearDelay := some 5000 })
  | outcome =>
    ({ dom with statusText := failureMessage, statusColor := "#ff6b6b" },
     { posts := [data], loggedErrors := [thrownError outcome], statusClearDelay := none })

/-- The `finally` block (scripts.js lines 366-372): the button is restored
only when `originalButtonText` is truthy, i.e. a non-empty string. -/
def restoreButton (originalButtonText : String) (dom : SubmitDom) : SubmitDom :=
  if originalButtonText = "" then dom
  else { dom with buttonDisabled := false, buttonLabel := originalButtonText }

/-- The submit handler (scripts.js lines 294-373): clear the status, run
the validator, abort when invalid; otherwise build the payload, enter the
loading state, run the attempt, and restore the button. -/
def submitHandler (dom0 : SubmitDom) (net : NetOutcome) : SubmitDom × SubmitEffects :=
  let dom2 : SubmitDom :=
    { dom0 with
        statusText := ""
        statusClass := "form-status"
        fieldErrors := runValidation dom0.fields }
  if validateForm dom0.fields = false then
    (dom2, { posts := [], loggedErrors := [], statusClearDelay := none })
  else
    let data := buildPayload dom0.fields
    let originalButtonText := dom0.buttonLabel
    let dom3 := { dom2 with buttonDisabled := true, buttonLabel := sendingLabel }
    let res := submitAttempt data net dom3
    (restoreButton originalButtonText res.1, res.2)

/-- The callback of the 5000 ms `setTimeout` scheduled on success
(scripts.js lines 350-354): blank the status text. -/
def statusClearTimer (dom : SubmitDom) : SubmitDom :=
  { dom with statusText := "" }

/-- A `section[id]` element as read by `highlightActiveSection`:
its id, `offsetTop` and `offsetHeight`. -/
structure PageSection where
  id : String
  top : Int
  height : Int
deriving DecidableEq

/-- A `.nav-link` anchor: its `href` and whether it carries the
`active` class. -/
structure NavLink where
  href : String
  active : Bool
deriving DecidableEq

/-- Whether `document.querySelector` finds a nav link for the section. -/
def hasLink (links : List NavLink) (s : PageSection) : Bool :=
  links.any fun ln => ln.href == "#" ++ s.id

/-- `navLinks.forEach(link => link.classList.remove('active'))`. -/
def clearActive (links : List NavLink) : List NavLink :=
  links.map fun ln => { ln with active := false }

/-- `correspondingLink.classList.add('active')` where the corresponding
link is the first one matching the href, as `querySelector` returns. -/
def markFirst : List NavLink → String → List NavLink
  | [], _ => []
  | ln :: rest, href =>
    if ln.href == href then { ln with active := true } :: rest
    else ln :: markFirst rest href

/-- Clear every link, then activate the one for the given href. -/
def setActiveOnly (links : List NavLink) (href : String) : List NavLink :=
  markFirst (clearActive links) href

/-- `scrollPosition >= sectionTop && scrollPosition < sectionTop +
sectionHeight` (scripts.js line 111). -/
def inRange (scrollPosition : Int) (s : PageSection) : Bool :=
  decide (s.top ≤ scrollPosition) && decide (scrollPosition < s.top + s.height)

/-- Body of the `sections.forEach` callback in `highlightActiveSection`
(scripts.js lines 103-115). -/
def highlightStep (scrollPosition : Int) (links : List NavLink) (s : PageSection) :
    List NavLink :=
  if hasLink links s then
    if inRange scrollPosition s then setActiveOnly links ("#" ++ s.id)
    else links
  else links

/-- `highlightActiveSection` (scripts.js lines 100-116) with
`scrollPosition = window.scrollY + 150`. -/
def highlightActiveSection (scrollY : Int) (sections : List PageSection)
    (links : List NavLink) : List NavLink :=
  sections.foldl (highlightStep (scrollY + 150)) links

/-- Number of links currently carrying the `active` class. -/
def countActive (links : List NavLink) : Nat :=
  (links.filter fun ln => ln.active).length

/-- The `[sectionTop, sectionTop + height)` ranges of two sections do not
overlap. -/
def sectionsDisjoint (a b : PageSection) : Prop :=
  a.top + a.height ≤ b.top ∨ b.top + b.height ≤ a.top

/-- The `handleTab` closure created by `trapFocus` (scripts.js lines
397-411), on a list of focusable elements (identified by strings) and the
current `document.activeElement`.  Returns the element receiving focus,
if any, and whether `preventDefault` was called. -/
def handleTab (focusables : List String) (activeElement : String)
    (key : String) (shiftKey : Bool) : Option String × Bool :=
  if key ≠ "Tab" then (none, false)
  else if shiftKey then
    if some activeElement = focusables.head? then (focusables.getLast?, true)
    else (none, false)
  else
    if some activeElement = focusables.getLast? then (focusables.head?, true)
    else (none, false)

/-- DOM state touched by the `navToggle` click handler (scripts.js lines
51-64), together with the list of keydown listeners attached to the nav
menu element. -/
structure MenuState where
  ariaExpanded : Bool
  menuOpen : Bool
  bodyOverflowHidden : Bool
  menuKeydownListeners : List String
deriving DecidableEq

/-- The `navToggle` click handler: flip `aria-expanded`, toggle the
`open` class, and suppress body scroll while open.  It attaches no
listener, and in particular never calls `trapFocus`. -/
def navToggleClick (st : MenuState) : MenuState :=
  { st with
      ariaExpanded := !st.ariaExpanded
      menuOpen := !st.menuOpen
      bodyOverflowHidden := !st.ariaExpanded }

/-- Keydown listeners attached to the nav menu element by the whole
script.  The only `addEventListener('keydown', ...)` on a menu element is
inside `trapFocus` (scripts.js line 413), and `trapFocus` is defined at
line 389 but never invoked anywhere in the script, so the list is
empty; the only live keydown listener is the document-level Escape
handler (line 421). -/
def navMenuKeydownListeners : List String := []

end Portfolio

namespace Portfolio

theorem validateEmail_example : validateEmail "a@b.co" = true := by decide

end Portfolio

namespace Portfolio

/-- The single dot character is in the class `[^\s@]`. -/
theorem emailOk_dot : emailOk '.' = true := by decide

theorem validateEmail_iff_matches (x : String) :
    validateEmail x = true ↔ matchesEmailPattern x := by
  unfold validateEmail matchesEmailPattern
  simp only [decide_eq_true_eq, Finset.mem_range]
  generalize x.data = l
  constructor
  · rintro ⟨i, hi, j, hj, h1, h2, h3, hat, hdot, hall⟩
    have hij : i < l.length := by omega
    have hjl : j < l.length := by omega
    have hat' : l[i] = '@' := by
      rw [← List.getD_eq_getElem l ' ' hij]; exact hat
    have hdot' : l[j] = '.' := by
      rw [← List.getD_eq_getElem l ' ' hjl]; exact hdot
    refine ⟨l.take i, (l.drop (i+1)).take (j - (i+1)), l.drop (j+1),
      ?_, ?_, ?_, ?_, ?_, ?_, ?_⟩
    · conv_lhs => rw [← List.take_append_drop i l]
      rw [List.drop_eq_getElem_cons hij, hat']
      congr 1
      congr 1
      conv_lhs => rw [← List.take_append_drop (j - (i+1)) (l.drop (i+1))]
      congr 1
      rw [List.drop_drop]
      have hje : i + 1 + (j - (i+1)) = j := by omega
      rw [hje, List.drop_eq_getElem_cons hjl, hdot']
    · intro hnil
      have hlen : (l.take i).length = 0 := by rw [hnil]; rfl
      rw [List.length_take] at hlen
      omega
    · intro hnil
      have hlen : ((l.drop (i+1)).take (j - (i+1))).length = 0 := by rw [hnil]; rfl
      rw [List.length_take, List.length_drop] at hlen
      omega
    · intro hnil
      have hlen : (l.drop (j+1)).length = 0 := by rw [hnil]; rfl
      rw [List.length_drop] at hlen
      omega
    · intro c hc
      obtain ⟨m, hm, rfl⟩ := List.mem_iff_getElem.mp hc
      have hmi : m < i := by
        rw [List.length_take] at hm; omega
      rw [List.getElem_take, ← List.getD_eq_getElem l ' ' (by omega)]
      exact hall m (by omega) (by omega)
    · intro c hc
      obtain ⟨m, hm, rfl⟩ := List.mem_iff_getElem.mp hc
      have hmb : m < j - (i+1) := by
        rw [List.length_take, List.length_drop] at hm; omega
      rw [List.getElem_take, List.getElem_drop, ← List.getD_eq_getElem l ' ' (by omega)]
      exact hall (i+1+m) (by omega) (by omega)
    · intro c hc
      obtain ⟨m, hm, rfl⟩ := List.mem_iff_getElem.mp hc
      have hmc : m < l.length - (j+1) := by
        rw [List.length_drop] at hm; omega
      rw [List.getElem_drop, ← List.getD_eq_getElem l ' ' (by omega)]
      exact hall (j+1+m) (by omega) (by omega)
  · rintro ⟨A, B, C, heq, hA, hB, hC, hAok, hBok, hCok⟩
    subst heq
    have hAl : 0 < A.length := List.length_pos.mpr hA
    have hBl : 0 < B.length := List.length_pos.mpr hB
    have hCl : 0 < C.length := List.length_pos.mpr hC
    have hlen : (A ++ '@' :: (B ++ '.' :: C)).length
        = A.length + 1 + B.length + 1 + C.length := by
      simp [List.length_append]
      omega
    refine ⟨A.length, by omega, A.length + 1 + B.length, by omega,
      by omega, by omega, by omega, ?_, ?_, ?_⟩
    · rw [List.getD_append_right _ _ _ _ (Nat.le_refl _), Nat.sub_self]
      rfl
    · rw [List.getD_append_right _ _ _ _ (by omega)]
      have he : A.length + 1 + B.length - A.length = B.length + 1 := by omega
      rw [he, List.getD_cons_succ, List.getD_append_right _ _ _ _ (Nat.le_refl _),
        Nat.sub_self]
      rfl
    · intro k hk hki
      rcases Nat.lt_trichotomy k A.length with hlt | hkeq | hgt
      · rw [List.getD_append _ _ _ _ hlt,
          List.getD_eq_getElem A ' ' hlt]
        exact hAok _ (List.getElem_mem _)
      · exact absurd hkeq hki
      · rw [List.getD_append_right _ _ _ _ (by omega)]
        have hsplit : k - A.length = (k - A.length - 1) + 1 := by omega
        rw [hsplit, List.getD_cons_succ]
        rcases Nat.lt_trichotomy (k - A.length - 1) B.length with hBlt | hBeq | hBgt
        · rw [List.getD_append _ _ _ _ hBlt, List.getD_eq_getElem B ' ' hBlt]
          exact hBok _ (List.getElem_mem _)
        · rw [List.getD_append_right _ _ _ _ (by omega), hBeq, Nat.sub_self]
          exact emailOk_dot
        · rw [List.getD_append_right _ _ _ _ (by omega)]
          have hsplit2 : k - A.length - 1 - B.length = (k - A.length - 1 - B.length - 1) + 1 := by
            omega
          rw [hsplit2, List.getD_cons_succ]
          have hCb : k - A.length - 1 - B.length - 1 < C.length := by omega
          rw [List.getD_eq_getElem C ' ' hCb]
          exact hCok _ (List.getElem_mem _)

end Portfolio

namespace Portfolio

theorem checkName_eq_none_iff (v : String) :
    checkName v = none ↔ 2 ≤ (jsTrim v).length := by
  unfold checkName
  split_ifs with h1 h2
  · rw [h1]
    simp
  · simp
    omega
  · simp
    omega

theorem checkMessage_eq_none_iff (v : String) :
    checkMessage v = none ↔ 10 ≤ (jsTrim v).length := by
  unfold checkMessage
  split_ifs with h1 h2
  · rw [h1]
    simp
  · simp
    omega
  · simp
    omega

theorem checkEmail_eq_none_iff (v : String) :
    checkEmail v = none ↔ (jsTrim v ≠ "" ∧ validateEmail (jsTrim v) = true) := by
  unfold checkEmail
  split_ifs with h1 h2
  · simp [h1]
  · simp [h1, h2]
  · simp only [Bool.not_eq_false] at h2
    simp [h1, h2]

/-- C3: `validateEmail` accepts exactly the strings matching
`^[^\s@]+@[^\s@]+\.[^\s@]+$`, and in particular accepts `a@b.co` while
rejecting `a@b` and `a b@c.com`. -/
theorem claim_C3_validateEmail_matches_pattern :
    (∀ x : String, validateEmail x = true ↔ matchesEmailPattern x) ∧
    validateEmail "a@b.co" = true ∧
    validateEmail "a@b" = false ∧
    validateEmail "a b@c.com" = false :=
  ⟨validateEmail_iff_matches, by decide, by decide, by decide⟩

/-- C4: each field is valid exactly when its trimmed value is non-empty
and satisfies its rule (name length at least 2, message length at least
10, email matching the pattern), the overall boolean is the conjunction
of the per-field results, and the concrete examples from the
specification evaluate as stated. -/
theorem claim_C4_per_field_validation :
    (∀ f : FormInput,
      (checkName f.name = none ↔ 2 ≤ (jsTrim f.name).length) ∧
      (checkEmail f.email = none ↔
        (jsTrim f.email ≠ "" ∧ validateEmail (jsTrim f.email) = true)) ∧
      (checkMessage f.message = none ↔ 10 ≤ (jsTrim f.message).length) ∧
      validateForm f = ((checkName f.name).isNone && (checkEmail f.email).isNone &&
        (checkMessage f.message).isNone)) ∧
    checkName "" = some "Please enter your name" ∧
    checkName "a" = some "Name must be at least 2 characters" ∧
    checkName "al" = none ∧
    checkMessage "123456789" = some "Message must be at least 10 characters" ∧
    checkMessage "1234567890" = none :=
  ⟨fun f => ⟨checkName_eq_none_iff f.name, checkEmail_eq_none_iff f.email,
    checkMessage_eq_none_iff f.message, rfl⟩,
   by decide, by decide, by decide, by decide, by decide⟩

end Portfolio

namespace Portfolio

theorem restoreButton_statusText (o : String) (d : SubmitDom) :
    (restoreButton o d).statusText = d.statusText := by
  unfold restoreButton
  split <;> rfl

theorem restoreButton_fields (o : String) (d : SubmitDom) :
    (restoreButton o d).fields = d.fields := by
  unfold restoreButton
  split <;> rfl

theorem validateForm_eq_false_of_check {f : FormInput}
    (h : checkName f.name ≠ none ∨ checkEmail f.email ≠ none ∨
      checkMessage f.message ≠ none) :
    validateForm f = false := by
  unfold validateForm
  rcases h with h | h | h
  · cases hc : checkName f.name with
    | none => exact absurd hc h
    | some m => simp [hc]
  · cases hc : checkEmail f.email with
    | none => exact absurd hc h
    | some m => simp [hc]
  · cases hc : checkMessage f.message with
    | none => exact absurd hc h
    | some m => simp [hc]

/-- C1: when any field fails validation the handler aborts: no request is
issued, nothing is logged, no timer is scheduled, and the error elements
hold exactly the messages the validator produced, at least one of them
non-empty. -/
theorem claim_C1_invalid_aborts :
    ∀ (dom : SubmitDom) (net : NetOutcome),
    (checkName dom.fields.name ≠ none ∨ checkEmail dom.fields.email ≠ none ∨
      checkMessage dom.fields.message ≠ none) →
    (submitHandler dom net).2.posts = [] ∧
    (submitHandler dom net).2.loggedErrors = [] ∧
    (submitHandler dom net).2.statusClearDelay = none ∧
    (submitHandler dom net).1.fieldErrors = runValidation dom.fields ∧
    ((submitHandler dom net).1.fieldErrors.nameError ≠ none ∨
     (submitHandler dom net).1.fieldErrors.emailError ≠ none ∨
     (submitHandler dom net).1.fieldErrors.messageError ≠ none) := by
  intro dom net h
  have hv : validateForm dom.fields = false := validateForm_eq_false_of_check h
  refine ⟨?_, ?_, ?_, ?_, ?_⟩ <;>
    simp [submitHandler, hv, runValidation]
  exact h

theorem claim_C1_witness :
    (checkName "x" ≠ none ∨ checkEmail "a@b.co" ≠ none ∨
      checkMessage "hello there!" ≠ none) ∧
    (submitHandler
      { fields := { name := "x", email := "a@b.co", message := "hello there!" },
        fieldErrors := { nameError := none, emailError := none, messageError := none },
        statusText := "", statusClass := "", statusColor := "",
        buttonDisabled := false, buttonLabel := "Send Message" }
      (NetOutcome.ok true none)).2.posts = [] :=
  ⟨Or.inl (by decide),
   (claim_C1_invalid_aborts
      { fields := { name := "x", email := "a@b.co", message := "hello there!" },
        fieldErrors := { nameError := none, emailError := none, messageError := none },
        statusText := "", statusClass := "", statusColor := "",
        buttonDisabled := false, buttonLabel := "Send Message" }
      (NetOutcome.ok true none) (Or.inl (by decide))).1⟩

end Portfolio

namespace Portfolio

/-- A valid form whose submit button has an empty original label: the
claimed restore is skipped because the `finally` block tests
`originalButtonText` for truthiness and the empty string is falsy. -/
def emptyLabelDom : SubmitDom :=
  { fields := { name := "Jo", email := "a@b.co", message := "hellothere" },
    fieldErrors := { nameError := none, emailError := none, messageError := none },
    statusText := "", statusClass := "", statusColor := "",
    buttonDisabled := false, buttonLabel := "" }

/-- C2 counterexample: a submission that reaches the network call and
succeeds, yet leaves the submit button disabled and labelled with the
loading text, because the original label was the empty string. -/
theorem claim_C2_counterexample :
    validateForm emptyLabelDom.fields = true ∧
    (submitHandler emptyLabelDom (NetOutcome.ok true none)).1.buttonDisabled = true ∧
    (submitHandler emptyLabelDom (NetOutcome.ok true none)).1.buttonLabel =
      "<span>Sending...</span>" ∧
    emptyLabelDom.buttonLabel = "" := by
  refine ⟨by decide, ?_, ?_, rfl⟩ <;> decide

/-- C2 as amended: for every submission that reaches the network call and
whose button label was non-empty before the attempt, the button ends up
re-enabled with its original label restored, regardless of the network
outcome. -/
theorem claim_C2_button_restored :
    ∀ (dom : SubmitDom) (net : NetOutcome),
    validateForm dom.fields = true →
    dom.buttonLabel ≠ "" →
    (submitHandler dom net).1.buttonDisabled = false ∧
    (submitHandler dom net).1.buttonLabel = dom.buttonLabel := by
  intro dom net hv hl
  simp [submitHandler, hv, restoreButton, hl]

/-- C2 witness: a concrete valid submission with label `Send Message`. -/
theorem claim_C2_witness :
    validateForm
      { name := "Jo", email := "a@b.co", message := "hellothere" } = true ∧
    ("Send Message" : String) ≠ "" ∧
    (submitHandler
      { fields := { name := "Jo", email := "a@b.co", message := "hellothere" },
        fieldErrors := { nameError := none, emailError := none, messageError := none },
        statusText := "", statusClass := "", statusColor := "",
        buttonDisabled := false, buttonLabel := "Send Message" }
      (NetOutcome.fetchThrow "NetworkError")).1.buttonDisabled = false ∧
    (submitHandler
      { fields := { name := "Jo", email := "a@b.co", message := "hellothere" },
        fieldErrors := { nameError := none, emailError := none, messageError := none },
        statusText := "", statusClass := "", statusColor := "",
        buttonDisabled := false, buttonLabel := "Send Message" }
      (NetOutcome.fetchThrow "NetworkError")).1.buttonLabel = "Send Message" :=
  ⟨by decide, by decide,
   (claim_C2_button_restored
      { fields := { name := "Jo", email := "a@b.co", message := "hellothere" },
        fieldErrors := { nameError := none, emailError := none, messageError := none },
        statusText := "", statusClass := "", statusColor := "",
        buttonDisabled := false, buttonLabel := "Send Message" }
      (NetOutcome.fetchThrow "NetworkError") (by decide) (by decide)).1,
   (claim_C2_button_restored
      { fields := { name := "Jo", email := "a@b.co", message := "hellothere" },
        fieldErrors := { nameError := none, emailError := none, messageError := none },
        statusText := "", statusClass := "", statusColor := "",
        buttonDisabled := false, buttonLabel := "Send Message" }
      (NetOutcome.fetchThrow "NetworkError") (by decide) (by decide)).2⟩

end Portfolio

namespace Portfolio

/-- A fully valid form state used as a concrete input by witnesses. -/
def validDom : SubmitDom :=
  { fields := { name := "Jo", email := "a@b.co", message := "hellothere" },
    fieldErrors := { nameError := none, emailError := none, messageError := none },
    statusText := "", statusClass := "", statusColor := "",
    buttonDisabled := false, buttonLabel := "Send Message" }

theorem submitHandler_posts (dom : SubmitDom) (net : NetOutcome)
    (hv : validateForm dom.fields = true) :
    (submitHandler dom net).2.posts = [buildPayload dom.fields] := by
  rcases net with m | m | ⟨s, m⟩
  · simp [submitHandler, hv, submitAttempt]
  · simp [submitHandler, hv, submitAttempt]
  · cases s <;> simp [submitHandler, hv, submitAttempt]

/-- C5: a valid submission issues exactly one POST, whose JSON body holds
the access key, the three field values, and a subject synthesized from
the name. -/
theorem claim_C5_single_post :
    ∀ (dom : SubmitDom) (net : NetOutcome),
    validateForm dom.fields = true →
    (submitHandler dom net).2.posts = [buildPayload dom.fields] ∧
    (buildPayload dom.fields).access_key = accessKey ∧
    (buildPayload dom.fields).name = dom.fields.name ∧
    (buildPayload dom.fields).email = dom.fields.email ∧
    (buildPayload dom.fields).message = dom.fields.message ∧
    (buildPayload dom.fields).subject =
      "New message from " ++ dom.fields.name ++ " - Portfolio Contact Form" :=
  fun dom net hv => ⟨submitHandler_posts dom net hv, rfl, rfl, rfl, rfl, rfl⟩

theorem claim_C5_witness :
    validateForm validDom.fields = true ∧
    (submitHandler validDom (NetOutcome.ok true none)).2.posts =
      [buildPayload validDom.fields] ∧
    (buildPayload validDom.fields).subject =
      "New message from Jo - Portfolio Contact Form" :=
  ⟨by decide,
   (claim_C5_single_post validDom (NetOutcome.ok true none) (by decide)).1,
   by decide⟩

/-- C6: on a `success:true` response the fields are cleared, the status is
non-empty, a 5000 ms clearing timer is scheduled, firing it empties the
status, and firing it twice is the same as firing it once. -/
theorem claim_C6_success_path :
    ∀ (dom : SubmitDom) (m : Option String),
    validateForm dom.fields = true →
    (submitHandler dom (NetOutcome.ok true m)).1.fields =
      { name := "", email := "", message := "" } ∧
    (submitHandler dom (NetOutcome.ok true m)).1.statusText ≠ "" ∧
    (submitHandler dom (NetOutcome.ok true m)).2.statusClearDelay = some 5000 ∧
    (statusClearTimer (submitHandler dom (NetOutcome.ok true m)).1).statusText = "" ∧
    statusClearTimer (statusClearTimer (submitHandler dom (NetOutcome.ok true m)).1) =
      statusClearTimer (submitHandler dom (NetOutcome.ok true m)).1 := by
  intro dom m hv
  refine ⟨?_, ?_, ?_, rfl, rfl⟩
  · simp [submitHandler, hv, submitAttempt, restoreButton_fields]
  · simp [submitHandler, hv, submitAttempt, restoreButton_statusText]
    decide
  · simp [submitHandler, hv, submitAttempt]

theorem claim_C6_witness :
    validateForm validDom.fields = true ∧
    (submitHandler validDom (NetOutcome.ok true none)).1.fields =
      { name := "", email := "", message := "" } ∧
    (submitHandler validDom (NetOutcome.ok true none)).2.statusClearDelay = some 5000 :=
  ⟨by decide,
   (claim_C6_success_path validDom none (by decide)).1,
   (claim_C6_success_path validDom none (by decide)).2.2.1⟩

/-- C7: on every failing outcome (transport error, JSON parse error, or a
`success:false` response) the fields are untouched, the user sees only the
fixed generic failure text, and the underlying error is logged. -/
theorem claim_C7_failure_path :
    ∀ (dom : SubmitDom) (net : NetOutcome),
    validateForm dom.fields = true →
    isFailure net = true →
    (submitHandler dom net).1.fields = dom.fields ∧
    (submitHandler dom net).1.statusText = failureMessage ∧
    (submitHandler dom net).2.loggedErrors = [thrownError net] := by
  intro dom net hv hf
  rcases net with m | m | ⟨s, m⟩
  · refine ⟨?_, ?_, ?_⟩ <;>
      simp [submitHandler, hv, submitAttempt, restoreButton_fields,
        restoreButton_statusText]
  · refine ⟨?_, ?_, ?_⟩ <;>
      simp [submitHandler, hv, submitAttempt, restoreButton_fields,
        restoreButton_statusText]
  · cases s
    · refine ⟨?_, ?_, ?_⟩ <;>
        simp [submitHandler, hv, submitAttempt, restoreButton_fields,
          restoreButton_statusText]
    · simp [isFailure] at hf

theorem claim_C7_witness :
    validateForm validDom.fields = true ∧
    isFailure (NetOutcome.fetchThrow "TypeError: Failed to fetch") = true ∧
    (submitHandler validDom (NetOutcome.fetchThrow "TypeError: Failed to fetch")).1.fields =
      validDom.fields ∧
    (submitHandler validDom
      (NetOutcome.fetchThrow "TypeError: Failed to fetch")).2.loggedErrors =
      ["TypeError: Failed to fetch"] :=
  ⟨by decide, by decide,
   (claim_C7_failure_path validDom (NetOutcome.fetchThrow "TypeError: Failed to fetch")
      (by decide) (by decide)).1,
   (claim_C7_failure_path validDom (NetOutcome.fetchThrow "TypeError: Failed to fetch")
      (by decide) (by decide)).2.2⟩

/-- C10: validation depends only on the trimmed field values, while the
payload embeds the raw untrimmed values, including inside the synthesized
subject. -/
theorem claim_C10_raw_payload_trimmed_validation :
    (∀ f g : FormInput, jsTrim f.name = jsTrim g.name →
      jsTrim f.email = jsTrim g.email → jsTrim f.message = jsTrim g.message →
      validateForm f = validateForm g) ∧
    (∀ (dom : SubmitDom) (net : NetOutcome), validateForm dom.fields = true →
      (submitHandler dom net).2.posts = [buildPayload dom.fields]) ∧
    (∀ f : FormInput,
      (buildPayload f).name = f.name ∧ (buildPayload f).email = f.email ∧
      (buildPayload f).message = f.message ∧
      (buildPayload f).subject =
        "New message from " ++ f.name ++ " - Portfolio Contact Form") := by
  refine ⟨?_, fun dom net hv => submitHandler_posts dom net hv,
    fun f => ⟨rfl, rfl, rfl, rfl⟩⟩
  intro f g h1 h2 h3
  unfold validateForm checkName checkEmail checkMessage
  rw [h1, h2, h3]

theorem claim_C10_witness :
    jsTrim " Jo " = jsTrim "Jo" ∧
    jsTrim " a@b.co " = jsTrim "a@b.co" ∧
    jsTrim " hello there " = jsTrim "hello there" ∧
    validateForm { name := " Jo ", email := " a@b.co ", message := " hello there " } =
      validateForm { name := "Jo", email := "a@b.co", message := "hello there" } ∧
    validateForm { name := " Jo ", email := " a@b.co ", message := " hello there " } = true ∧
    (submitHandler
      { fields := { name := " Jo ", email := " a@b.co ", message := " hello there " },
        fieldErrors := { nameError := none, emailError := none, messageError := none },
        statusText := "", statusClass := "", statusColor := "",
        buttonDisabled := false, buttonLabel := "Send Message" }
      (NetOutcome.ok true none)).2.posts =
      [buildPayload { name := " Jo ", email := " a@b.co ", message := " hello there " }] ∧
    (buildPayload { name := " Jo ", email := " a@b.co ", message := " hello there " }).subject =
      "New message from  Jo  - Portfolio Contact Form" :=
  ⟨by decide, by decide, by decide,
   claim_C10_raw_payload_trimmed_validation.1
     { name := " Jo ", email := " a@b.co ", message := " hello there " }
     { name := "Jo", email := "a@b.co", message := "hello there" }
     (by decide) (by decide) (by decide),
   by decide,
   claim_C10_raw_payload_trimmed_validation.2.1
     { fields := { name := " Jo ", email := " a@b.co ", message := " hello there " },
       fieldErrors := { nameError := none, emailError := none, messageError := none },
       statusText := "", statusClass := "", statusColor := "",
       buttonDisabled := false, buttonLabel := "Send Message" }
     (NetOutcome.ok true none) (by decide),
   by decide⟩

end Portfolio

namespace Portfolio

theorem sectionsDisjoint_symm {a b : PageSection} (h : sectionsDisjoint a b) :
    sectionsDisjoint b a :=
  Or.symm h

theorem not_inRange_of_disjoint (p : Int) (a s : PageSection)
    (hd : sectionsDisjoint a s) (hs : inRange p s = true) :
    inRange p a = false := by
  have hs' : s.top ≤ p ∧ p < s.top + s.height := by
    simpa [inRange] using hs
  unfold sectionsDisjoint at hd
  by_contra hne
  rw [Bool.not_eq_false] at hne
  have ha' : a.top ≤ p ∧ p < a.top + a.height := by
    simpa [inRange] using hne
  rcases hd with hd | hd <;> omega

theorem highlightStep_of_not_inRange (p : Int) (links : List NavLink)
    (s : PageSection) (h : inRange p s = false) :
    highlightStep p links s = links := by
  unfold highlightStep
  rw [h]
  split <;> rfl

theorem foldl_highlightStep_of_no_match (p : Int) (L : List PageSection)
    (links : List NavLink) (h : ∀ s ∈ L, inRange p s = false) :
    L.foldl (highlightStep p) links = links := by
  induction L generalizing links with
  | nil => rfl
  | cons a t ih =>
    rw [List.foldl_cons,
      highlightStep_of_not_inRange p links a (h a (List.mem_cons_self a t))]
    exact ih links fun s hs => h s (List.mem_cons_of_mem a hs)

theorem countActive_eq_zero_of_inactive (L : List NavLink)
    (h : ∀ ln ∈ L, ln.active = false) : countActive L = 0 := by
  unfold countActive
  rw [List.length_eq_zero, List.filter_eq_nil_iff]
  intro ln hln
  simp [h ln hln]

theorem countActive_cons_true (a : NavLink) (t : List NavLink)
    (h : a.active = true) : countActive (a :: t) = countActive t + 1 := by
  simp [countActive, List.filter_cons, h]

theorem countActive_cons_false (a : NavLink) (t : List NavLink)
    (h : a.active = false) : countActive (a :: t) = countActive t := by
  simp [countActive, List.filter_cons, h]

theorem countActive_markFirst_le_one (L : List NavLink) (href : String)
    (hL : ∀ ln ∈ L, ln.active = false) :
    countActive (markFirst L href) ≤ 1 := by
  induction L with
  | nil => simp [markFirst, countActive]
  | cons a t ih =>
    unfold markFirst
    split
    · rw [countActive_cons_true _ _ rfl,
        countActive_eq_zero_of_inactive t
          fun ln hln => hL ln (List.mem_cons_of_mem a hln)]
    · rw [countActive_cons_false _ _ (hL a (List.mem_cons_self a t))]
      exact ih fun ln hln => hL ln (List.mem_cons_of_mem a hln)

theorem clearActive_inactive (L : List NavLink) :
    ∀ ln ∈ clearActive L, ln.active = false := by
  intro ln hln
  simp [clearActive] at hln
  obtain ⟨o, _, rfl⟩ := hln
  rfl

theorem countActive_setActiveOnly_le_one (links : List NavLink) (href : String) :
    countActive (setActiveOnly links href) ≤ 1 :=
  countActive_markFirst_le_one _ _ (clearActive_inactive links)

/-- C8: with pairwise non-overlapping section ranges, whenever
`scrollY + 150` falls inside the range of a section that has a nav link,
running the computation leaves exactly that link activated on the cleared
link list, so at most one link carries the active class. -/
theorem claim_C8_active_section_exclusive :
    ∀ (scrollY : Int) (sections : List PageSection) (links : List NavLink)
      (s : PageSection),
    List.Pairwise sectionsDisjoint sections →
    s ∈ sections →
    inRange (scrollY + 150) s = true →
    hasLink links s = true →
    highlightActiveSection scrollY sections links = setActiveOnly links ("#" ++ s.id) ∧
    countActive (highlightActiveSection scrollY sections links) ≤ 1 := by
  intro scrollY sections links s hp hm hr hl
  obtain ⟨l1, l2, rfl⟩ := List.append_of_mem hm
  have key : highlightActiveSection scrollY (l1 ++ s :: l2) links =
      setActiveOnly links ("#" ++ s.id) := by
    unfold highlightActiveSection
    obtain ⟨hp1, hp2, hmid⟩ := List.pairwise_append.mp hp
    have hpre : ∀ t ∈ l1, inRange (scrollY + 150) t = false := fun t ht =>
      not_inRange_of_disjoint _ t s (hmid t ht s (List.mem_cons_self s l2)) hr
    rw [List.foldl_append, foldl_highlightStep_of_no_match _ _ _ hpre,
      List.foldl_cons]
    have hstep : highlightStep (scrollY + 150) links s =
        setActiveOnly links ("#" ++ s.id) := by
      unfold highlightStep
      simp [hl, hr]
    rw [hstep]
    have hpost : ∀ t ∈ l2, inRange (scrollY + 150) t = false := by
      have hs2 := (List.pairwise_cons.mp hp2).1
      exact fun t ht =>
        not_inRange_of_disjoint _ t s (sectionsDisjoint_symm (hs2 t ht)) hr
    exact foldl_highlightStep_of_no_match _ _ _ hpost
  exact ⟨key, key ▸ countActive_setActiveOnly_le_one links _⟩

theorem claim_C8_witness :
    List.Pairwise sectionsDisjoint
      [{ id := "home", top := 0, height := 600 },
       { id := "about", top := 600, height := 400 }] ∧
    ({ id := "about", top := 600, height := 400 } : PageSection) ∈
      [{ id := "home", top := 0, height := 600 },
       { id := "about", top := 600, height := 400 }] ∧
    inRange (500 + 150) { id := "about", top := 600, height := 400 } = true ∧
    hasLink [{ href := "#home", active := false }, { href := "#about", active := false }]
      { id := "about", top := 600, height := 400 } = true ∧
    highlightActiveSection 500
      [{ id := "home", top := 0, height := 600 },
       { id := "about", top := 600, height := 400 }]
      [{ href := "#home", active := false }, { href := "#about", active := false }] =
      setActiveOnly
        [{ href := "#home", active := false }, { href := "#about", active := false }]
        ("#" ++ "about") ∧
    countActive (highlightActiveSection 500
      [{ id := "home", top := 0, height := 600 },
       { id := "about", top := 600, height := 400 }]
      [{ href := "#home", active := false }, { href := "#about", active := false }]) ≤ 1 := by
  have hp : List.Pairwise sectionsDisjoint
      [{ id := "home", top := 0, height := 600 },
       { id := "about", top := 600, height := 400 }] := by
    simp [List.pairwise_cons, sectionsDisjoint]
  have happ := claim_C8_active_section_exclusive 500
    [{ id := "home", top := 0, height := 600 },
     { id := "about", top := 600, height := 400 }]
    [{ href := "#home", active := false }, { href := "#about", active := false }]
    { id := "about", top := 600, height := 400 }
    hp (by decide) (by decide) (by decide)
  exact ⟨hp, by decide, by decide, by decide, happ.1, happ.2⟩

end Portfolio

namespace Portfolio

/-- C9: the `handleTab` closure that `trapFocus` would install does wrap
focus cyclically (Tab on the last focusable element moves to the first,
Shift+Tab on the first moves to the last), but no keydown listener is ever
attached to the nav menu: `trapFocus` is dead code, and the toggle click
handler that opens the menu leaves the listener list untouched. -/
theorem claim_C9_focus_trap_dead_code :
    (∀ (fs : List String) (a : String), some a = fs.getLast? →
      handleTab fs a "Tab" false = (fs.head?, true)) ∧
    (∀ (fs : List String) (a : String), some a = fs.head? →
      handleTab fs a "Tab" true = (fs.getLast?, true)) ∧
    navMenuKeydownListeners = [] ∧
    (∀ st : MenuState,
      (navToggleClick st).menuKeydownListeners = st.menuKeydownListeners ∧
      (navToggleClick st).menuOpen = !st.menuOpen) := by
  refine ⟨?_, ?_, rfl, fun st => ⟨rfl, rfl⟩⟩
  · intro fs a h
    unfold handleTab
    simp [h]
  · intro fs a h
    unfold handleTab
    simp [h]

theorem claim_C9_witness :
    (some "c" = (["a", "b", "c"] : List String).getLast? ∧
      handleTab ["a", "b", "c"] "c" "Tab" false = (some "a", true)) ∧
    (some "a" = (["a", "b", "c"] : List String).head? ∧
      handleTab ["a", "b", "c"] "a" "Tab" true = (some "c", true)) :=
  ⟨⟨rfl, claim_C9_focus_trap_dead_code.1 ["a", "b", "c"] "c" rfl⟩,
   ⟨rfl, claim_C9_focus_trap_dead_code.2.1 ["a", "b", "c"] "a" rfl⟩⟩

end Portfolio
